import Mathlib

/-!
Shallow embedding of parts of the zs2miniz compiler front-end, translated from
the Python sources, together with theorems that settle the frozen claims about
the natural-language specification.

Conventions used throughout this development:
* Python exceptions are modelled by the sum type `PyError` and fallible code
  returns `Except PyError _`.
* Mutable objects are modelled by explicit state passing: a method that
  mutates its receiver returns the updated value.
* Payloads that are irrelevant to every claim (source spans, debug info,
  the concrete identity of runtime objects) are elided or replaced by
  opaque stand-ins such as `Nat`; each such elision is noted next to the
  definition it concerns.
-/

namespace Zs2Miniz

/-- Errors raised by the embedded code.  Constructors mirror the Python
exception classes that the modelled code can raise: `valueError`,
`typeError`, `indexError` and `keyError` are the built-in Python exceptions;
`nameNotFound`, `nameAlreadyBound`, `overloadMatch` and `codeCompilation`
mirror the classes of zs/zs2miniz/errors.py.  Message strings are simplified
(quotes around interpolated values are dropped); `nameAlreadyBound` exists in
errors.py but is never raised by the live code.  `divergence` is not a Python
exception: it marks an input on which the source loops forever, so that the
embedding stays total. -/
inductive PyError where
  | valueError
  | typeError
  | indexError
  | keyError (key : String)
  | nameNotFound (name : String)
  | nameAlreadyBound (name : String)
  | overloadMatch (group : String) (types : String)
  | codeCompilation (message : String)
  | divergence
  deriving DecidableEq, Repr

/-- Generic association-list lookup, modelling Python dict indexing for the
small dictionaries used below (insertion order is irrelevant because every
insertion point first checks for the key's absence). -/
def assocFind {κ α : Type} [DecidableEq κ] : List (κ × α) → κ → Option α
  | [], _ => none
  | (k, v) :: rest, key => if k = key then some v else assocFind rest key

/-! ## Scope (zs/zs2miniz/lib.py, class Scope)

`Obj` stands in for the arbitrary Python objects (`ObjectProtocol` values and
type objects) stored in scope items; only which item a name maps to matters
to the claims, never the payload itself. -/

abbrev Obj := Nat

/-- Scope items, mirroring `Variable` and `ReadOnly` of zs/zs2miniz/lib.py.
Both are `TypedStorageUnit`s with a `_type` and a `_value` slot.  The owner
back-pointer and the name field are elided (the name is the association-list
key). -/
inductive ScopeItem where
  | var (typeSlot valueSlot : Obj)
  | readonly (typeSlot valueSlot : Obj)
  deriving DecidableEq, Repr

/-- A scope: parent pointer plus the `_items` dictionary
(zs/zs2miniz/lib.py, `Scope.__init__`). -/
inductive Scope where
  | mk (parent : Option Scope) (items : List (String × ScopeItem))

def Scope.parent : Scope → Option Scope
  | .mk p _ => p

def Scope.items : Scope → List (String × ScopeItem)
  | .mk _ it => it

/-- Mirrors `Scope._assert_name_unused`: raises a plain `ValueError` (not
`NameAlreadyBoundError`) when the name is already bound in this scope.  The
real message interpolates the bound object and the scope's default repr (a
memory address), which is elided here. -/
def Scope.assert_name_unused (s : Scope) (name : String) : Except PyError Unit :=
  match assocFind s.items name with
  | some _ => .error .valueError
  | none => .ok ()

/-- Mirrors `Scope.create_variable_name`.  The source constructs
`Variable(name, self, value, type)` although `TypedStorageUnit.__init__`
takes `(name, owner, type, value)`, so the value argument lands in the
`_type` slot and the type argument lands in the `_value` slot; the embedding
reproduces that argument order. -/
def Scope.create_variable_name (s : Scope) (name : String) (value type_ : Obj) :
    Except PyError (ScopeItem × Scope) :=
  match s.assert_name_unused name with
  | .error e => .error e
  | .ok _ =>
    let result := ScopeItem.var value type_
    .ok (result, .mk s.parent ((name, result) :: s.items))

/-- Mirrors `Scope.create_readonly_name`.  When no type is supplied the
source uses `value.runtime_type`; that method call on the stored object is
passed in as the function `runtime_type`. -/
def Scope.create_readonly_name (s : Scope) (name : String) (value : Obj)
    (type_ : Option Obj) (runtime_type : Obj → Obj) :
    Except PyError (ScopeItem × Scope) :=
  match s.assert_name_unused name with
  | .error e => .error e
  | .ok _ =>
    let t := match type_ with
      | none => runtime_type value
      | some t => t
    let result := ScopeItem.readonly t value
    .ok (result, .mk s.parent ((name, result) :: s.items))

/-- Mirrors `Scope.lookup_name`, split over the two parent shapes so that
the recursion is structural (the source guard is
`if recursive_lookup and self.parent is not None`, the same boolean
condition).  `default = none` models the `_SENTINEL` default (no fallback
supplied) and `lookupFallback` models the final two statements (raise
`NameNotFoundError` without a default, return the default otherwise).
Note that the recursive call into the parent scope forwards
`recursive_lookup` but not `default`, exactly as in the source (line 129 of
zs/zs2miniz/lib.py). -/
def lookupFallback (name : String) : Option ScopeItem → Except PyError ScopeItem
  | none => .error (.nameNotFound name)
  | some d => .ok d

def Scope.lookup_name : Scope → String → Bool → Option ScopeItem → Except PyError ScopeItem
  | .mk none items, name, _, default =>
    match assocFind items name with
    | some item => .ok item
    | none => lookupFallback name default
  | .mk (some p) items, name, recursive_lookup, default =>
    match assocFind items name with
    | some item => .ok item
    | none =>
      if recursive_lookup then p.lookup_name name recursive_lookup none
      else lookupFallback name default

/-- Whether a name is bound in the scope or in any ancestor (the chain the
recursive lookup walks).  This is a specification-side predicate used to
state the lookup theorems; it is not a method of the source class. -/
def Scope.bound_in_chain : Scope → String → Bool
  | .mk none items, name => (assocFind items name).isSome
  | .mk (some p) items, name =>
    (assocFind items name).isSome || p.bound_in_chain name

/-! ## Compile-time dependency finder
(zs/zs2miniz/dependency_finder.py, class CompileTimeDependencyFinder)

Resolved nodes are hashed by object identity in the Python sets and dicts,
so they are represented here by opaque identifiers.  The inherited
computation `super().find_dependencies(node)` (which dispatches on the node
kind and may re-enter `find_dependencies` and mutate the cache through
`add`) is abstracted as the state-passing function `compute`. -/

abbrev NodeId := Nat

structure FinderState where
  cache : List (NodeId × List NodeId)
  visited : List NodeId
  deriving DecidableEq, Repr

/-- Mirrors `CompileTimeDependencyFinder.find_dependencies`: return the
cached list when present; otherwise, if the node was never visited, mark it
visited and run the inherited computation; otherwise fall through and return
`None` (the Python method has no return statement on that path). -/
def find_dependencies
    (compute : FinderState → NodeId → Option (List NodeId) × FinderState)
    (s : FinderState) (n : NodeId) : Option (List NodeId) × FinderState :=
  match assocFind s.cache n with
  | some deps => (some deps, s)
  | none =>
    if n ∈ s.visited then (none, s)
    else compute { s with visited := n :: s.visited } n

/-! ## Tokens (zs/text/token.py)

`TokenType` mirrors the members of the Python `TokenType` enum; `category`
mirrors the enum-value prefixes (the Python code recovers the category by
splitting the enum value string at the first dot). -/

inductive TokenType where
  | space | newLine | tab | lineComment | blockComment
  | eof | unknown | breakpoint
  | identifier
  | lCurly | rCurly | lCurvy | rCurvy | lSquare | rSquare
  | semicolon | colon | comma
  | operator
  | string | character | hex | decimal | real
  | trueValue | falseValue
  | nullValue | thisValue | baseValue | unitValue
  | kwAs | kwBreak | kwCase | kwCatch | kwClass | kwContinue | kwElse
  | kwFinally | kwFor | kwFrom | kwFun | kwIf | kwImport | kwIn | kwLet
  | kwModule | kwTry | kwUsing | kwValue | kwVar | kwWhen | kwWhere | kwWhile
  deriving DecidableEq, Repr

def TokenType.category : TokenType → String
  | .space | .newLine | .tab | .lineComment | .blockComment => ("WS")
  | .eof | .unknown | .breakpoint => ("Misc")
  | .identifier => ("Term")
  | .lCurly | .rCurly | .lCurvy | .rCurvy | .lSquare | .rSquare
  | .semicolon | .colon | .comma | .operator => ("Symbol")
  | .string | .character | .hex | .decimal | .real
  | .trueValue | .falseValue | .nullValue | .thisValue | .baseValue
  | .unitValue => ("Literal")
  | _ => ("KW")

/-- A token: kind plus lexeme.  The span is elided (no claim concerns it). -/
structure Token where
  type : TokenType
  value : String
  deriving DecidableEq, Repr

/-- Mirrors `Token.is_whitespace` (category equals `WS`). -/
def Token.is_whitespace (t : Token) : Bool :=
  t.type.category == ("WS")

/-! ## Tokenizer (zs/text/tokenizer.py)

The text stream is modelled as the list of remaining characters;
`TextStream.read(1)` returns the empty string at end of input, which is
modelled by the `read1` helper.  Python's Unicode-aware `isalpha`,
`isdigit` and `isalnum` are modelled by the corresponding ASCII predicates
on `Char` (every claim only involves ASCII source text). -/

def lbraceChar : Char := Char.ofNat 123

def rbraceChar : Char := Char.ofNat 125

def squoteChar : Char := Char.ofNat 39

/-- Mirrors `_OP_CHARS`. -/
def OP_CHARS : List Char :=
  ['.', '/', '|', '+', '-', '=', '<', '>', '!', '@', '#', '$', '%', '^', '&', '*', '~', '?']

/-- Mirrors `_HEX_CHARS` (note that the source includes the underscore). -/
def HEX_CHARS : List Char :=
  [('0'), ('1'), ('2'), ('3'), ('4'), ('5'), ('6'), ('7'), ('8'), ('9')] ++
    [('a'), ('b'), ('c'), ('d'), ('e'), ('f'), ('_')]

/-- Mirrors `_KEYWORDS`, the reserved-word table of zs/text/tokenizer.py.
The live tokenizer never consults it: the lookup in `Tokenizer._next` is
commented out in the source. -/
def KEYWORDS : List (String × TokenType) :=
  [("as", .kwAs), ("base", .baseValue), ("break", .kwBreak), ("case", .kwCase),
   ("catch", .kwCatch), ("class", .kwClass), ("continue", .kwContinue),
   ("else", .kwElse), ("false", .falseValue), ("finally", .kwFinally),
   ("for", .kwFor), ("from", .kwFrom), ("fun", .kwFun), ("if", .kwIf),
   ("import", .kwImport), ("in", .kwIn), ("let", .kwLet), ("module", .kwModule),
   ("null", .nullValue), ("this", .thisValue), ("true", .trueValue),
   ("try", .kwTry), ("unit", .unitValue), ("using", .kwUsing),
   ("value", .kwValue), ("var", .kwVar), ("when", .kwWhen),
   ("where", .kwWhere), ("while", .kwWhile)]

/-- Mirrors `TextStream.read(1)`: one character, or the empty string at end
of input. -/
def read1 : List Char → String × List Char
  | [] => ((""), [])
  | c :: cs => (String.singleton c, cs)

/-- Whether the next character (peek) equals `c`; false at end of input. -/
def peekIs (cs : List Char) (c : Char) : Bool :=
  match cs with
  | [] => false
  | d :: _ => d == c

/-- Mirrors `Tokenizer._next_identifier`: extend `res` while the peeked
character is alphanumeric or an underscore. -/
def next_identifier : String → List Char → String × List Char
  | res, [] => (res, [])
  | res, c :: cs =>
    if c.isAlphanum || c == ('_') then next_identifier (res.push c) cs
    else (res, c :: cs)

/-- Mirrors the scan loop of `Tokenizer._next_operator`. -/
def next_operator : String → List Char → String × List Char
  | res, [] => (res, [])
  | res, c :: cs =>
    if c ∈ OP_CHARS then next_operator (res.push c) cs
    else (res, c :: cs)

/-- Mirrors the loop of `Tokenizer._next_string` (the opening quote has
already been consumed).  On an unterminated string the source loops forever
(peek returns the empty string, which differs from the quote, and read keeps
returning the empty string); that is modelled by `none`. -/
def next_string_chars : List Char → Option (String × List Char)
  | [] => none
  | c :: cs =>
    if c = ('"') then some ((""), cs)
    else if c = ('\\') then
      match cs with
      | [] => none
      | c2 :: cs2 =>
        match next_string_chars cs2 with
        | none => none
        | some (s, r) => some (((String.singleton c).push c2) ++ s, r)
    else
      match next_string_chars cs with
      | none => none
      | some (s, r) => some ((String.singleton c) ++ s, r)

/-- Mirrors `Tokenizer._next_char` (after the opening quote): read one
character (two for an escape), record a state error when the closing quote
is missing (the error collector is not modelled), then consume one more
character unconditionally. -/
def next_char_value (cs : List Char) : String × List Char :=
  let p1 := read1 cs
  let p2 :=
    if p1.1 = ("\\") then
      let px := read1 p1.2
      (p1.1 ++ px.1, px.2)
    else p1
  let p3 := read1 p2.2
  (p2.1, p3.2)

/-- Mirrors the line-comment loop of `Tokenizer._next`: read a character,
stop on a newline, and also stop (dropping the just-read character) when the
stream is at end of input after the read. -/
def line_comment : String → List Char → String × List Char
  | acc, [] => (acc, [])
  | acc, c :: cs =>
    if c = ('\n') then (acc, cs)
    else
      match cs with
      | [] => (acc, [])
      | _ :: _ => line_comment (acc.push c) cs

/-- Mirrors the block-comment loop of `Tokenizer._next`: nested comments
adjust the level, every read character is appended, and the loop stops when
the level reaches zero or the input ends. -/
def block_comment_loop : Nat → String → List Char → String × List Char
  | _, acc, [] => (acc, [])
  | level, acc, c :: cs =>
    if level = 0 then (acc, c :: cs)
    else
      let level2 :=
        if c == ('*') && peekIs cs ('/') then level - 1
        else if c == ('/') && peekIs cs ('*') then level + 1
        else level
      block_comment_loop level2 (acc.push c) cs

/-- The block-comment branch: run the loop at level 1, then consume the
closing slash when the input has not ended. -/
def block_comment_tok (cs : List Char) : String × List Char :=
  match block_comment_loop 1 ("") cs with
  | (acc, []) => (acc, [])
  | (acc, _ :: r) => (acc, r)

/-- Mirrors `Tokenizer._get_int`. -/
def get_int : String → List Char → String × List Char
  | res, [] => (res, [])
  | res, c :: cs =>
    if c.isDigit then get_int (res.push c) cs
    else (res, c :: cs)

/-- Mirrors the hex-digit loop of `Tokenizer._next_number` (the peeked
character is lowered for the membership test but appended unchanged). -/
def hex_scan : String → List Char → String × List Char
  | res, [] => (res, [])
  | res, c :: cs =>
    if c.toLower ∈ HEX_CHARS then hex_scan (res.push c) cs
    else (res, c :: cs)

/-- Mirrors `Tokenizer._get_num_type`.  On the fall-through paths (for
example `i` followed by `1` but not `6`) the Python function returns `None`
with the stream already advanced, modelled by `(none, _)`. -/
def get_num_type (t : Char) (cs : List Char) : Option String × List Char :=
  if t = ('i') ∨ t = ('u') then
    match cs with
    | ('8') :: r => (some (String.mk [t, ('8')]), r)
    | ('1') :: r =>
      match r with
      | ('6') :: r2 => (some (String.mk [t, ('1'), ('6')]), r2)
      | _ => (none, r)
    | ('3') :: r =>
      match r with
      | ('2') :: r2 => (some (String.mk [t, ('3'), ('2')]), r2)
      | _ => (none, r)
    | ('6') :: r =>
      match r with
      | ('4') :: r2 => (some (String.mk [t, ('6'), ('4')]), r2)
      | _ => (none, r)
    | _ => (none, cs)
  else if t = ('f') then
    match cs with
    | ('3') :: r =>
      match r with
      | ('2') :: r2 => (some (String.mk [t, ('3'), ('2')]), r2)
      | _ => (none, r)
    | ('6') :: r =>
      match r with
      | ('4') :: r2 => (some (String.mk [t, ('6'), ('4')]), r2)
      | _ => (none, r)
    | _ => (none, cs)
  else (some (String.singleton t), cs)

/-- The trailing underscore-suffix step of `Tokenizer._next_number`. -/
def num_underscore (type_ : TokenType) (value : String) (cs : List Char) :
    TokenType × String × List Char :=
  match cs with
  | c :: cs2 =>
    if c = ('_') then
      let p := next_identifier (String.singleton c) cs2
      (type_, value ++ p.1, p.2)
    else (type_, value, c :: cs2)
  | [] => (type_, value, [])

/-- Mirrors `Tokenizer._next_number`.  When `_get_num_type` returns `None`
the source evaluates `value += None`, a `TypeError`. -/
def next_number (res : String) (cs : List Char) :
    Except PyError (TokenType × String × List Char) :=
  let scanned :=
    if res == ("0") && peekIs cs ('x') then
      let p := hex_scan ("") cs.tail
      (TokenType.hex, p.1, p.2)
    else
      let p0 := get_int res cs
      if peekIs p0.2 ('.') then
        let p1 := get_int (p0.1.push ('.')) p0.2.tail
        (TokenType.real, p1.1, p1.2)
      else (TokenType.decimal, p0.1, p0.2)
  match scanned.2.2 with
  | c :: cs2 =>
    if c == ('i') || c == ('u') || c == ('f') || c == ('I') || c == ('U') then
      match get_num_type c cs2 with
      | (none, _) => .error .typeError
      | (some s, cs3) => .ok (num_underscore scanned.1 (scanned.2.1 ++ s) cs3)
    else .ok (num_underscore scanned.1 scanned.2.1 (c :: cs2))
  | [] => .ok (num_underscore scanned.1 scanned.2.1 [])

/-- Mirrors `Tokenizer._next`, producing the token kind, the token value and
the remaining input.  The branch order follows the Python `match` statement.
Reserved words take the default branch (first character alphabetic) and are
returned as `identifier` tokens: the `_KEYWORDS` lookup in the source is
commented out. -/
def tokenizer_next : List Char → Except PyError (TokenType × String × List Char)
  | [] => .ok (TokenType.unknown, (""), [])
  | c :: cs =>
    if c = ('$') then .ok (TokenType.breakpoint, String.singleton c, cs)
    else if c = ('\n') then .ok (TokenType.newLine, String.singleton c, cs)
    else if c = (' ') then .ok (TokenType.space, String.singleton c, cs)
    else if c = ('\t') then .ok (TokenType.tab, String.singleton c, cs)
    else if c = lbraceChar then .ok (TokenType.lCurly, String.singleton c, cs)
    else if c = rbraceChar then .ok (TokenType.rCurly, String.singleton c, cs)
    else if c = ('(') then .ok (TokenType.lCurvy, String.singleton c, cs)
    else if c = (')') then .ok (TokenType.rCurvy, String.singleton c, cs)
    else if c = ('[') then .ok (TokenType.lSquare, String.singleton c, cs)
    else if c = (']') then .ok (TokenType.rSquare, String.singleton c, cs)
    else if c = (';') then .ok (TokenType.semicolon, String.singleton c, cs)
    else if c = (':') then .ok (TokenType.colon, String.singleton c, cs)
    else if c = (',') then .ok (TokenType.comma, String.singleton c, cs)
    else if c = ('"') then
      match next_string_chars cs with
      | none => .error .divergence
      | some (s, r) => .ok (TokenType.string, s, r)
    else if c = squoteChar then
      let p := next_char_value cs
      .ok (TokenType.character, p.1, p.2)
    else if c = ('0') then next_number (String.singleton c) cs
    else if c ∈ OP_CHARS then
      if c == ('/') && peekIs cs ('/') then
        let p := line_comment ("") cs
        .ok (TokenType.lineComment, p.1, p.2)
      else if c == ('/') && peekIs cs ('*') then
        let p := block_comment_tok cs
        .ok (TokenType.blockComment, p.1, p.2)
      else
        let p := next_operator (String.singleton c) cs
        .ok (TokenType.operator, p.1, p.2)
    else if c == ('_') || c.isAlpha then
      let p := next_identifier (String.singleton c) cs
      .ok (TokenType.identifier, p.1, p.2)
    else if c.isDigit then next_number (String.singleton c) cs
    else .ok (TokenType.unknown, String.singleton c, cs)

/-- The reserved words listed by the specification (the `_KEYWORDS` table
additionally contains `base`). -/
def reservedWords : List String :=
  [("as"), ("break"), ("case"), ("catch"), ("class"), ("continue"), ("else"),
   ("false"), ("finally"), ("for"), ("from"), ("fun"), ("if"), ("import"),
   ("in"), ("let"), ("module"), ("null"), ("this"), ("true"), ("try"),
   ("unit"), ("using"), ("value"), ("var"), ("when"), ("where"), ("while")]

/-! ## Token stream (zs/text/token_stream.py) -/

/-- Mirrors `TokenStream`: the filtered token list, the current position and
the file name.  Python list indices can be negative; the claims only involve
non-negative positions, so the position is a `Nat`. -/
structure TokenStream where
  tokens : List Token
  current : Nat
  file : String
  deriving DecidableEq, Repr

/-- Mirrors `TokenStream.__init__`: whitespace tokens are filtered out and
the position starts at zero. -/
def TokenStream.ofList (ts : List Token) (file : String) : TokenStream :=
  ⟨ts.filter (fun t => !t.is_whitespace), 0, file⟩

/-- Mirrors the `token` property: `self._tokens[self._current]`, an
`IndexError` when the position is out of range. -/
def TokenStream.token (s : TokenStream) : Except PyError Token :=
  match s.tokens[s.current]? with
  | some t => .ok t
  | none => .error .indexError

/-- Mirrors the `end` property: `self._current == len(self._tokens) or
self.token.type == TokenType.EOF` (the second disjunct indexes the list and
can raise `IndexError`). -/
def TokenStream.stream_end (s : TokenStream) : Except PyError Bool :=
  if s.current = s.tokens.length then .ok true
  else
    match s.tokens[s.current]? with
    | some t => .ok (t.type == TokenType.eof)
    | none => .error .indexError

/-- Mirrors `TokenStream.read`: at the end of the stream return `self.token`
without advancing (note that when the position equals the list length this
indexes past the end); otherwise return the current token and advance. -/
def TokenStream.read (s : TokenStream) : Except PyError (Token × TokenStream) :=
  match s.stream_end with
  | .error e => .error e
  | .ok true =>
    match s.token with
    | .error e => .error e
    | .ok t => .ok (t, s)
  | .ok false =>
    match s.token with
    | .error e => .error e
    | .ok t => .ok (t, { s with current := s.current + 1 })

/-! ## Object-model types and VM instructions

`MType` stands for the miniz static types referenced by the compiler code
under src (the miniz package itself is not part of src): `boolean`, `void`
and `any` are the distinguished primitives the compiler compares against,
and every other type is represented by its name. -/

inductive MType where
  | boolean
  | void
  | any
  | named (name : String)
  deriving DecidableEq, Repr

/-- Python `str` applied to a miniz type, as used for overload diagnostics. -/
def mtypeStr : MType → String
  | .boolean => ("Bool")
  | .void => ("Void")
  | .any => ("Any")
  | .named n => n

/-- VM instructions (miniz.vm.instructions; the instruction set is listed in
the specification).  Jump targets are instruction objects in the source
(references by identity); here a target is carried as a subterm, and
`noOperation` carries an identifier so that distinct `NoOperation()`
allocations stay distinguishable.  Loads carry the static type they push on
the compile-time type stack; `call` and `createInstance` carry the callee
name, the argument count and the return type. -/
inductive Instruction where
  | loadObject (type : MType)
  | loadArgument (index : Nat) (type : MType)
  | loadLocal (index : Nat) (type : MType)
  | setLocal (index : Nat)
  | loadField (name : String) (type : MType)
  | pop
  | call (callee : String) (argc : Nat) (returnType : MType)
  | createInstance (cls : String) (argc : Nat) (returnType : MType)
  | ret
  | noOperation (id : Nat)
  | jump (target : Instruction)
  | jumpIfFalse (target : Instruction)
  deriving DecidableEq, Repr

/-! ## Return-type inference
(zs/zs2miniz/compiler.py, `FunctionCompiler.compile` on `ResolvedFunctionBody`)

The analyzer itself lives in utilz.analysis (not under src) and is modelled
from the spec. -/

/-- Modelled from the spec: the parallel compile-time type stack, with one
stack effect per instruction (utilz/miniz type-stack code is not under
src).  Loads push the loaded type, stores and `Pop` pop, a call pops the
arguments and pushes the return type, `JumpIfFalse` pops the condition, and
the remaining instructions leave the stack unchanged. -/
def typeStackStep (stack : List MType) : Instruction → List MType
  | .loadObject t => t :: stack
  | .loadArgument _ t => t :: stack
  | .loadLocal _ t => t :: stack
  | .loadField _ t => t :: stack
  | .setLocal _ => stack.tail
  | .pop => stack.tail
  | .call _ n r => r :: stack.drop n
  | .createInstance _ n r => r :: stack.drop n
  | .ret => stack
  | .noOperation _ => stack
  | .jump _ => stack
  | .jumpIfFalse _ => stack.tail

/-- Modelled from the spec: walk the instruction list, simulating the type
stack and recording the stack-top type at every `Return` instruction. -/
def collectReturnTypes (stack : List MType) : List Instruction → List MType
  | [] => []
  | i :: rest =>
    let tailTypes := collectReturnTypes (typeStackStep stack i) rest
    match i, stack.head? with
    | .ret, some t => t :: tailTypes
    | _, _ => tailTypes

/-- Modelled from the spec: `ReturnTypeAnalyzer.quick_analysis(...).
possible_return_types`, the distinct stack-top types collected at the
`Return` instructions of the list (utilz.analysis is not under src;
the spec errors on `more than one distinct type`, which matches the
`len(...) != 1` check in src only if the analyzer deduplicates). -/
def possible_return_types (instructions : List Instruction) : List MType :=
  (collectReturnTypes [] instructions).dedup

/-- Mirrors lines 273-277 of zs/zs2miniz/compiler.py: when the function has
no annotated return type, the analyzer result must contain exactly one type,
which becomes the signature's return type; any other count (zero included)
raises a `CodeCompilationError`.  The message is the source's, with the
apostrophe-bearing contraction spelled out. -/
def inferReturnType (instructions : List Instruction) : Except PyError MType :=
  match possible_return_types instructions with
  | [t] => .ok t
  | _ => .error (.codeCompilation ("cannot currently handle more than 1 path in a function"))

/-! ## Overload-group curvy call
(zs/std/callable_impl.py, `__OverloadGroupICallable.curvy_call`) -/

/-- An argument at a call site: the emitted code and its static type
(miniz.interfaces.overloading.Argument). -/
structure Argument where
  code : List Instruction
  type : MType
  deriving DecidableEq, Repr

/-- An overload group; only the name is relevant to the embedded code (the
overload list and parent pointer live behind the abstracted `match`). -/
structure OverloadGroup where
  name : String
  deriving DecidableEq, Repr

/-- A successful per-call match, mirroring the fields of
`OverloadMatchResult` that `curvy_call` consumes. -/
structure OverloadMatchResult where
  matched_args : List Argument
  matched_kwargs : List (String × Argument)
  has_callee : Bool
  call_instruction : Instruction
  callee_instructions : List Instruction

/-- Mirrors lines 36-51 of zs/std/callable_impl.py.  `matchFn s r` stands
for `group.match(args, kwargs, strict=s, recursive=r, instance=instance)`
(miniz.concrete.overloading is not under src, so the group-level matcher is
abstracted; args, kwargs and instance are fixed at the call site).  When the
match count differs from one, the source builds the diagnostic string as
`', '.join([*map(lambda arg: str(arg.type), args), *map(lambda name, arg:
name + '=' + str(arg.type), kwargs)])`; the second `map` hands each
`(name, arg)` pair to a two-parameter lambda as a single argument, so as
soon as `kwargs` is non-empty this raises `TypeError` instead of producing
the `name=type` rendering. -/
def OverloadGroup.curvy_call (group : OverloadGroup)
    (matchFn : Bool → Bool → List OverloadMatchResult)
    (args : List Argument) (kwargs : List (String × Argument)) :
    Except PyError (List Instruction) :=
  let strictMatches := matchFn true false
  let matchList := if strictMatches.isEmpty then matchFn false true else strictMatches
  match matchList with
  | [m] =>
    .ok ((m.matched_args.map (fun a => a.code)).flatten ++
         (m.matched_kwargs.map (fun p => p.2.code)).flatten ++
         (if m.has_callee then [m.call_instruction] else m.callee_instructions))
  | _ =>
    if kwargs.isEmpty then
      .error (.overloadMatch group.name
        (String.intercalate (", ") (args.map (fun a => mtypeStr a.type))))
    else .error .typeError

/-! ## Function-call compilation
(zs/zs2miniz/compiler.py, `CodeCompiler._compile` on `ResolvedFunctionCall`,
lines 642-695) -/

/-- The callable protocol of the resolved callee at a call site: the results
of its `curvy_call` and `square_call` for the already-compiled arguments
(argument compilation and the static-type analysis of the callee are fixed
inputs here; a `square_call` result that is not a code-generation result is
wrapped into a `LoadObject` by lines 691-692, folded into the parameter). -/
structure CallableVal where
  curvy : Except PyError (List Instruction)
  square : Except PyError (List Instruction)

/-- Mirrors the `except OverloadMatchError` clause of lines 688-689: an
overload-match failure is re-raised as a `CodeCompilationError` carrying the
group name and the argument-type string. -/
def wrapOverloadMatchError (r : Except PyError (List Instruction)) :
    Except PyError (List Instruction) :=
  match r with
  | .error (.overloadMatch g types) =>
    .error (.codeCompilation
      (("could not find a suitable overload for function ") ++ g ++
       (" with types (") ++ types ++ (")")))
  | other => other

/-- Mirrors the dispatch of lines 642-695: reject operators outside the set
of three; reject non-callable callees; dispatch `()` to `curvy_call` and
`[]` to `square_call`; any remaining operator (that is, the curly brackets,
which passed the first check) raises the second invalid-call-operator
error.  `none` for the callable models a callee whose static type is not an
`ICallable`. -/
def compileResolvedFunctionCall (op : String) (callable : Option CallableVal) :
    Except PyError (List Instruction) :=
  if op ∈ ([("()"), ("\x7b\x7d"), ("[]")] : List String) then
    match callable with
    | none => .error (.codeCompilation ("object is not callable"))
    | some c =>
      if op = ("()") then wrapOverloadMatchError c.curvy
      else if op = ("[]") then wrapOverloadMatchError c.square
      else .error (.codeCompilation (("invalid call operator: ") ++ op))
  else .error (.codeCompilation (("call operator ") ++ op ++ (" is invalid")))

/-! ## If compilation
(zs/zs2miniz/compiler.py, `CodeCompiler._compile` on `ResolvedIf`,
lines 697-734) -/

/-- Mirrors lines 697-734.  Inputs stand for the already-compiled pieces:
`condCode` for `compile_expression(node.condition)`, `condType` for the
analyzed result type of the condition, `toBool` for the code produced by
looking up the `->bool` conversion on the condition type and emitting its
curvy call over the condition code (lines 707-712), `trueCode` for the
compiled true branch and `elseCode` for the compiled else branch when the
node has one.  `nopId` identifies the fresh `NoOperation()` allocated as
`false_start = false_end`.  The `debug.emit(condition[0], ...)` call indexes
the condition code, and with an else branch `if_false[0]` indexes the else
code, so empty code lists raise `IndexError`. -/
def compileResolvedIf (nopId : Nat) (condCode : List Instruction) (condType : MType)
    (toBool : List Instruction → List Instruction)
    (trueCode : List Instruction) (elseCode : Option (List Instruction)) :
    Except PyError (List Instruction) :=
  match condCode with
  | [] => .error .indexError
  | _ :: _ =>
    let condition := if condType = MType.boolean then condCode else toBool condCode
    let falseEnd := Instruction.noOperation nopId
    match elseCode with
    | some ifFalse =>
      match ifFalse with
      | [] => .error .indexError
      | falseStart :: _ =>
        .ok (condition ++ [Instruction.jumpIfFalse falseStart] ++ trueCode ++
             [Instruction.jump falseEnd] ++ ifFalse ++ [falseEnd])
    | none =>
      .ok (condition ++ [Instruction.jumpIfFalse falseEnd] ++ trueCode ++
           [Instruction.jump falseEnd] ++ [falseEnd])

/-! ## Import system (zs/zs2miniz/import_system.py)

Filesystem queries are abstracted by `FileSystem`; paths are plain strings
(`pathlib.Path` normalization is elided — the claims only use simple
relative paths, which `Path` leaves unchanged).  An importer's result
(`ScopeProtocol | None`) is modelled as `Option String`, the string tagging
which importer ran on which source. -/

structure FileSystem where
  is_dir : String → Bool
  exists_path : String → Bool
  cwd : String

/-- Mirrors class `Importer`: `import_from` plus the optional
`import_directory` (the base class sets the attribute to `None` via the
`@lambda _: None` decorator; registered directory importers override it). -/
structure Importer where
  import_from : String → Option String
  import_directory : Option (String → Option String)

/-- Mirrors `ImportSystem`: parent, search path, suffix-keyed importers,
scheme-keyed importers and the directory-importer list. -/
inductive ImportSystem where
  | mk (parent : Option ImportSystem) (path : List String)
       (suffix_importers : List (String × Importer))
       (importers : List (String × Importer))
       (directory_importers : List Importer)

def ImportSystem.parent : ImportSystem → Option ImportSystem
  | .mk p _ _ _ _ => p

def ImportSystem.path : ImportSystem → List String
  | .mk _ p _ _ _ => p

def ImportSystem.suffix_importers : ImportSystem → List (String × Importer)
  | .mk _ _ s _ _ => s

def ImportSystem.importers : ImportSystem → List (String × Importer)
  | .mk _ _ _ i _ => i

def ImportSystem.directory_importers : ImportSystem → List Importer
  | .mk _ _ _ _ d => d

/-- True for the ASCII letters, the character class of the scheme regex. -/
def isAsciiLetter (c : Char) : Bool :=
  (('A') ≤ c && c ≤ ('Z')) || (('a') ≤ c && c ≤ ('z'))

/-- Mirrors `re.match(r"(?P<importer>[A-Za-z]+):(?P<source>.*)", source)`:
the match succeeds exactly when the source starts with one or more ASCII
letters followed by a colon (backtracking cannot produce any other split,
because every shorter letter prefix is followed by another letter). -/
def schemeSplit (source : String) : Option (String × String) :=
  let pre := source.data.takeWhile isAsciiLetter
  let post := source.data.dropWhile isAsciiLetter
  match pre with
  | [] => none
  | _ :: _ =>
    match post with
    | [] => none
    | c :: rest => if c = (':') then some (String.mk pre, String.mk rest) else none

/-- Mirrors `pathlib.PurePath.suffix`: the extension of the final path
component (the characters after the last slash) — the component's substring
from its last dot, provided that dot is neither the first nor the last
character of the component. -/
def pathSuffix (p : String) : String :=
  let cs := (p.data.reverse.takeWhile (fun c => !(c == ('/')))).reverse
  let dots := (List.range cs.length).filter (fun i => cs.get? i == some ('.'))
  match dots.getLast? with
  | none => ("")
  | some i => if 0 < i ∧ i < cs.length - 1 then String.mk (cs.drop i) else ("")

/-- Mirrors `ImportSystem.import_directory`: the first directory importer
returning a truthy result wins. -/
def firstDirectoryResult : List Importer → String → Option String
  | [], _ => none
  | imp :: rest, path =>
    match imp.import_directory with
    | some f =>
      match f path with
      | some r => some r
      | none => firstDirectoryResult rest path
    | none => firstDirectoryResult rest path

def ImportSystem.import_directory (sys : ImportSystem) (path : String) : Option String :=
  firstDirectoryResult sys.directory_importers path

/-- Mirrors `ImportSystem.import_file`: dispatch on the path's suffix; on a
`KeyError` retry on the parent system, re-raising at the root. -/
def ImportSystem.import_file : ImportSystem → String → Except PyError (Option String)
  | .mk none _ suffix_importers _ _, path =>
    match assocFind suffix_importers (pathSuffix path) with
    | some imp => .ok (imp.import_from path)
    | none => .error (.keyError (pathSuffix path))
  | .mk (some p) _ suffix_importers _ _, path =>
    match assocFind suffix_importers (pathSuffix path) with
    | some imp => .ok (imp.import_from path)
    | none => p.import_file path

/-- Mirrors `ImportSystem.import_from`: scheme-prefixed sources dispatch to
the importer registered under the scheme (with a single direct fallback to
the parent's registry); every other source string is used as a filesystem
path exactly as given — the method performs no resolution against the
current document's directory, the search path or the working directory, and
never calls `resolve`. -/
def ImportSystem.import_from (fs : FileSystem) (sys : ImportSystem) (source : String) :
    Except PyError (Option String) :=
  match schemeSplit source with
  | some (scheme, rest) =>
    match assocFind sys.importers scheme with
    | some imp => .ok (imp.import_from rest)
    | none =>
      match sys.parent with
      | none => .error (.keyError scheme)
      | some p =>
        match assocFind p.importers scheme with
        | some imp => .ok (imp.import_from rest)
        | none => .error (.keyError scheme)
  | none =>
    if fs.is_dir source then .ok (sys.import_directory source)
    else sys.import_file source

/-- True when the path is absolute (POSIX form, as used by the claims). -/
def isAbsolute (p : String) : Bool := p.data.head? == some ('/')

def joinPath (d p : String) : String := d ++ ("/") ++ p

/-- The search-path walk of `ImportSystem.resolve`. -/
def searchDirs (fs : FileSystem) : List String → String → Option String
  | [], _ => none
  | d :: rest, p =>
    if fs.exists_path (joinPath d p) then some (joinPath d p)
    else searchDirs fs rest p

/-- Mirrors `ImportSystem.resolve`: an absolute path resolves to itself when
it exists; a relative path is tried against each search-path directory and
then against the current working directory.  The current document's
directory is not consulted, and `import_from` never calls this method (its
only caller in the class is `add_directory`). -/
def ImportSystem.resolve (fs : FileSystem) (sys : ImportSystem) (path : String) :
    Option String :=
  if isAbsolute path then (if fs.exists_path path then some path else none)
  else
    match searchDirs fs sys.path path with
    | some r => some r
    | none =>
      if fs.exists_path (joinPath fs.cwd path) then some (joinPath fs.cwd path)
      else none

/-! ## Concrete fixtures used by the claim theorems -/

/-- A recording `.zs` file importer: tags the source string it receives. -/
def zsImporterC6 : Importer :=
  ⟨fun s => some (("imported:") ++ s), none⟩

/-- A filesystem in which nothing is a directory and only `lib/foo.zs`
exists. -/
def fsC6 : FileSystem :=
  ⟨fun _ => false, fun s => s == ("lib/foo.zs"), (".")⟩

/-- An import system with `lib` on the search path and the `.zs` importer
registered. -/
def sysC6 : ImportSystem :=
  .mk none [("lib")] [((".zs"), zsImporterC6)] [] []

/-- A recording scheme importer for `module:` sources. -/
def modImporterC6 : Importer :=
  ⟨fun s => some (("mod:") ++ s), none⟩

/-- An import system with only the `module` scheme importer registered. -/
def sysC6M : ImportSystem :=
  .mk none [] [] [(("module"), modImporterC6)] []

deriving instance DecidableEq for Except

/-! ## Claim theorems -/

/-- Helper for C4: when a name is bound neither in the scope nor in any
ancestor, the recursive lookup without a default raises
`NameNotFoundError`. -/
theorem lookup_name_unbound : ∀ (s : Scope) (name : String),
    s.bound_in_chain name = false →
    s.lookup_name name true none = .error (.nameNotFound name)
  | .mk none items, name, h => by
    simp only [Scope.bound_in_chain] at h
    have hnone : assocFind items name = none :=
      Option.not_isSome_iff_eq_none.mp (by simp [h])
    simp [Scope.lookup_name, hnone, lookupFallback]
  | .mk (some p) items, name, h => by
    simp only [Scope.bound_in_chain, Bool.or_eq_false_iff] at h
    obtain ⟨h1, h2⟩ := h
    have hnone : assocFind items name = none :=
      Option.not_isSome_iff_eq_none.mp (by simp [h1])
    have ih := lookup_name_unbound p name h2
    simp [Scope.lookup_name, hnone, ih]

/-- C4 (amended): a name lookup without a default fails with the
`NameNotFound` error when the name is bound neither in the scope nor, under
recursive lookup, in any ancestor; creating a name that already exists in
the scope fails with a plain `ValueError` (the `NameAlreadyBoundError`
class exists in errors.py but is not raised by the scope code). -/
theorem scope_name_errors (s : Scope) (name : String) (value type_ : Obj) :
    (s.bound_in_chain name = false →
        s.lookup_name name true none = .error (.nameNotFound name)) ∧
    ((assocFind s.items name).isSome = true →
        s.create_variable_name name value type_ = .error .valueError) := by
  constructor
  · exact lookup_name_unbound s name
  · intro h
    unfold Scope.create_variable_name Scope.assert_name_unused
    cases hx : assocFind s.items name with
    | some v => rfl
    | none => rw [hx] at h; simp at h

/-- Witness for `scope_name_errors` at concrete scopes. -/
theorem scope_name_errors_witness :
    ((Scope.mk (some (Scope.mk none [])) []).lookup_name ("y") true none =
        .error (.nameNotFound ("y"))) ∧
    ((Scope.mk none [(("x"), ScopeItem.var 0 0)]).create_variable_name ("x") 1 2 =
        .error .valueError) :=
  ⟨(scope_name_errors (Scope.mk (some (Scope.mk none [])) []) ("y") 1 2).1 (by rfl),
   (scope_name_errors (Scope.mk none [(("x"), ScopeItem.var 0 0)]) ("x") 1 2).2 (by decide)⟩

/-- C4 counterexample: creating an already-bound name raises the plain
`ValueError` of `_assert_name_unused`, which is a different exception from
`NameAlreadyBoundError`, for every possible payload of the latter. -/
theorem create_name_duplicate_not_nameAlreadyBound :
    ((Scope.mk none [(("x"), ScopeItem.var 0 0)]).create_variable_name ("x") 1 2 =
        .error .valueError) ∧
    (∀ name, PyError.valueError ≠ PyError.nameAlreadyBound name) :=
  ⟨by rfl, fun _ h => by cases h⟩

/-- C5 (code bug): when the scope has a parent, the recursive call of
`lookup_name` drops the supplied default, so the lookup raises
`NameNotFoundError` even though a default fallback was provided; on a
parentless scope the same call returns the default. -/
theorem lookup_name_default_lost_in_parent_chain :
    ((Scope.mk (some (Scope.mk none [])) []).lookup_name ("x") true
        (some (ScopeItem.var 7 7)) = .error (.nameNotFound ("x"))) ∧
    ((Scope.mk none []).lookup_name ("x") true (some (ScopeItem.var 7 7)) =
        .ok (ScopeItem.var 7 7)) :=
  ⟨rfl, rfl⟩

/-- C9: within one `CompileTimeDependencyFinder`, dependencies are computed
at most once — a query returns a cached list as-is, an uncached unvisited
node is marked visited before the inherited computation runs, and a query
for a visited node without a cached result (a re-entrant query on a
dependency cycle) returns `None` without invoking the computation. -/
theorem find_dependencies_memoizes
    (compute : FinderState → NodeId → Option (List NodeId) × FinderState)
    (s : FinderState) (n : NodeId) :
    (∀ deps, assocFind s.cache n = some deps →
        find_dependencies compute s n = (some deps, s)) ∧
    (assocFind s.cache n = none → n ∈ s.visited →
        find_dependencies compute s n = (none, s)) ∧
    (assocFind s.cache n = none → n ∉ s.visited →
        find_dependencies compute s n =
          compute { s with visited := n :: s.visited } n) := by
  refine ⟨fun deps h => ?_, fun h hv => ?_, fun h hv => ?_⟩
  · simp [find_dependencies, h]
  · simp [find_dependencies, h, hv]
  · simp [find_dependencies, h, hv]

/-- Witness for `find_dependencies_memoizes`: a visited, uncached node
yields `None` with the state unchanged. -/
theorem find_dependencies_memoizes_witness :
    find_dependencies (fun s n => (some [n], s)) (FinderState.mk [] [5]) 5 =
      (none, FinderState.mk [] [5]) :=
  (find_dependencies_memoizes (fun s n => (some [n], s)) (FinderState.mk [] [5]) 5).2.1
    (by rfl) (by decide)

/-- C10 counterexample: on the stream built over a non-empty token list
without an EOF token, one read consumes the only token; the stream is then
at its end, but the next read raises `IndexError` instead of returning the
current token. -/
theorem read_past_end_indexError :
    ((TokenStream.ofList [Token.mk .identifier ("x")] ("f")).read =
        .ok (Token.mk .identifier ("x"),
             TokenStream.mk [Token.mk .identifier ("x")] 1 ("f"))) ∧
    ((TokenStream.mk [Token.mk .identifier ("x")] 1 ("f")).stream_end = .ok true) ∧
    ((TokenStream.mk [Token.mk .identifier ("x")] 1 ("f")).read = .error .indexError) :=
  ⟨rfl, rfl, rfl⟩

/-- C10 (amended): when the current token exists and has the EOF type, read
returns it without advancing the stream, so repeated reads keep returning
the same token; when the position equals the token-list length, read raises
`IndexError` while fetching the current token. -/
theorem read_at_end (s : TokenStream) :
    (∀ t, s.tokens[s.current]? = some t → t.type = TokenType.eof →
        s.read = .ok (t, s)) ∧
    (s.current = s.tokens.length → s.read = .error .indexError) := by
  constructor
  · intro t ht htype
    have hne : s.current ≠ s.tokens.length := by
      intro hEq
      rw [List.getElem?_eq_none (le_of_eq hEq.symm)] at ht
      cases ht
    simp [TokenStream.read, TokenStream.stream_end, TokenStream.token, ht, htype, hne]
  · intro h
    unfold TokenStream.read TokenStream.stream_end TokenStream.token
    rw [if_pos h, List.getElem?_eq_none (le_of_eq h.symm)]

/-- Witness for `read_at_end`: reading at an EOF token and reading at the
length position of an empty stream. -/
theorem read_at_end_witness :
    ((TokenStream.mk [Token.mk .eof ("")] 0 ("f")).read =
        .ok (Token.mk .eof (""), TokenStream.mk [Token.mk .eof ("")] 0 ("f"))) ∧
    ((TokenStream.mk [] 0 ("f")).read = .error .indexError) :=
  ⟨(read_at_end (TokenStream.mk [Token.mk .eof ("")] 0 ("f"))).1
      (Token.mk .eof ("")) (by rfl) (by rfl),
   (read_at_end (TokenStream.mk [] 0 ("f"))).2 (by rfl)⟩

/-- C7 counterexample: every reserved word tokenizes to an `identifier`
token, while the keyword table maps each reserved word to a kind different
from `identifier` — so no reserved word receives its keyword kind. -/
theorem keywords_tokenize_as_identifier_counterexample :
    (reservedWords.all (fun w =>
        tokenizer_next w.data ==
          Except.ok (TokenType.identifier, w, ([] : List Char)))) = true ∧
    (KEYWORDS.all (fun p => !(p.2 == TokenType.identifier))) = true :=
  ⟨by decide, by decide⟩

/-- C7 (amended): the tokenizer classifies every reserved word as an
`identifier` token; the keyword table exists but is never consulted (the
lookup in `Tokenizer._next` is commented out in the source), so reserved
words are not lexically distinguished from identifiers. -/
theorem keywords_tokenize_as_identifier :
    ∀ w ∈ reservedWords,
      tokenizer_next w.data = .ok (TokenType.identifier, w, []) := by
  decide

/-- Witness for `keywords_tokenize_as_identifier` at the reserved word
`if`. -/
theorem keywords_tokenize_as_identifier_witness :
    tokenizer_next (String.data ("if")) = .ok (TokenType.identifier, ("if"), []) :=
  keywords_tokenize_as_identifier ("if") (by decide)

/-- C3 counterexample: an instruction list containing no `Return` yields
zero collected return types, yet the inference raises the code-compilation
error — refuting the claim's direction that the error occurs only when more
than one distinct type was collected. -/
theorem inferReturnType_errors_with_zero_types :
    (possible_return_types
        [Instruction.loadObject (MType.named ("T")), Instruction.pop] = []) ∧
    (inferReturnType [Instruction.loadObject (MType.named ("T")), Instruction.pop] =
        .error (.codeCompilation
          ("cannot currently handle more than 1 path in a function"))) :=
  ⟨rfl, rfl⟩

/-- C3 (amended): the analyzer's collected return types are distinct;
exactly one collected type becomes the inferred return type; and the error
is raised if and only if the number of distinct collected types differs
from one — in particular also when no `Return` was seen at all. -/
theorem inferReturnType_cases (instructions : List Instruction) :
    (possible_return_types instructions).Nodup ∧
    (∀ t, possible_return_types instructions = [t] →
        inferReturnType instructions = .ok t) ∧
    ((possible_return_types instructions).length ≠ 1 ↔
        inferReturnType instructions =
          .error (.codeCompilation
            ("cannot currently handle more than 1 path in a function"))) := by
  refine ⟨List.nodup_dedup _, fun t ht => ?_, ?_⟩
  · unfold inferReturnType
    rw [ht]
  · unfold inferReturnType
    cases h : possible_return_types instructions with
    | nil => simp
    | cons a tail =>
      cases tail with
      | nil => simp
      | cons b rest => simp

/-- Witness for `inferReturnType_cases`: one collected type is adopted; an
empty body errors. -/
theorem inferReturnType_cases_witness :
    (inferReturnType [Instruction.loadObject (MType.named ("T")), Instruction.ret] =
        .ok (MType.named ("T"))) ∧
    (inferReturnType [] =
        .error (.codeCompilation
          ("cannot currently handle more than 1 path in a function"))) :=
  ⟨(inferReturnType_cases _).2.1 (MType.named ("T")) (by rfl),
   (inferReturnType_cases ([] : List Instruction)).2.2.mp (by decide)⟩

/-- C1 (code bug): when at least one named argument is present and the
match count differs from one, the diagnostic construction applies a
two-parameter lambda to each `(name, argument)` pair through `map`, raising
`TypeError` before any `OverloadMatchError` is built; with positional
arguments only, the intended `OverloadMatchError` carrying the group and
the comma-separated type string is raised. -/
theorem curvy_call_named_argument_typeError :
    (OverloadGroup.curvy_call (OverloadGroup.mk ("g")) (fun _ _ => []) []
        [(("x"), Argument.mk [] (MType.named ("T")))] = .error .typeError) ∧
    (OverloadGroup.curvy_call (OverloadGroup.mk ("g")) (fun _ _ => [])
        [Argument.mk [] (MType.named ("T")), Argument.mk [] MType.boolean] [] =
      .error (.overloadMatch ("g") ("T, Bool"))) :=
  ⟨rfl, rfl⟩

/-- C2 counterexample: a call whose operator is the curly brackets passes
the initial operator check but is then rejected with the
invalid-call-operator error, even though both `curvy_call` and
`square_call` would succeed — there is no curly-call dispatch. -/
theorem curly_operator_is_rejected :
    compileResolvedFunctionCall ("\x7b\x7d")
        (some (CallableVal.mk (.ok [Instruction.pop]) (.ok [Instruction.ret]))) =
      .error (.codeCompilation (("invalid call operator: ") ++ ("\x7b\x7d"))) :=
  rfl

/-- C2 (amended): `()` dispatches to `curvy_call` and `[]` to `square_call`
(overload-match failures rebranded as code-compilation errors); the curly
brackets pass the membership check of line 644 but then raise the
invalid-call-operator error of line 687; every operator outside the three
raises the invalid-call-operator error of line 645. -/
theorem compileResolvedFunctionCall_dispatch (op : String) (c : CallableVal) :
    (compileResolvedFunctionCall ("()") (some c) = wrapOverloadMatchError c.curvy) ∧
    (compileResolvedFunctionCall ("[]") (some c) = wrapOverloadMatchError c.square) ∧
    (compileResolvedFunctionCall ("\x7b\x7d") (some c) =
        .error (.codeCompilation (("invalid call operator: ") ++ ("\x7b\x7d")))) ∧
    (op ∉ ([("()"), ("\x7b\x7d"), ("[]")] : List String) →
        compileResolvedFunctionCall op (some c) =
          .error (.codeCompilation (("call operator ") ++ op ++ (" is invalid")))) := by
  refine ⟨rfl, rfl, rfl, fun h => ?_⟩
  unfold compileResolvedFunctionCall
  rw [if_neg h]

/-- Witness for `compileResolvedFunctionCall_dispatch` at a concrete
out-of-set operator. -/
theorem compileResolvedFunctionCall_dispatch_witness :
    compileResolvedFunctionCall ("<>")
        (some (CallableVal.mk (.ok []) (.ok []))) =
      .error (.codeCompilation (("call operator ") ++ ("<>") ++ (" is invalid"))) :=
  (compileResolvedFunctionCall_dispatch ("<>")
      (CallableVal.mk (.ok []) (.ok []))).2.2.2 (by decide)

/-- C8: with an else branch, the emitted sequence is the condition code
(wrapped in the `->bool` conversion call exactly when the condition's
static type is not Bool), a `JumpIfFalse` targeting the first instruction
of the else code, the true-branch code, an unconditional `Jump` to the
fresh `NoOperation` placed after the false block, and the false-branch code
followed by that `NoOperation`. -/
theorem compileResolvedIf_shape (nopId : Nat) (condCode trueCode rest : List Instruction)
    (falseStart : Instruction) (condType : MType)
    (toBool : List Instruction → List Instruction)
    (hc : condCode ≠ []) :
    compileResolvedIf nopId condCode condType toBool trueCode
        (some (falseStart :: rest)) =
      .ok ((if condType = MType.boolean then condCode else toBool condCode) ++
           [Instruction.jumpIfFalse falseStart] ++ trueCode ++
           [Instruction.jump (Instruction.noOperation nopId)] ++
           (falseStart :: rest) ++ [Instruction.noOperation nopId]) := by
  cases condCode with
  | nil => exact absurd rfl hc
  | cons a as => rfl

/-- Witness for `compileResolvedIf_shape` at a concrete if node. -/
theorem compileResolvedIf_shape_witness :
    compileResolvedIf 0 [Instruction.loadObject MType.boolean] MType.boolean
        (fun c => c) [Instruction.pop] (some (Instruction.ret :: [])) =
      .ok ((if MType.boolean = MType.boolean then [Instruction.loadObject MType.boolean]
            else [Instruction.loadObject MType.boolean]) ++
           [Instruction.jumpIfFalse Instruction.ret] ++ [Instruction.pop] ++
           [Instruction.jump (Instruction.noOperation 0)] ++
           (Instruction.ret :: []) ++ [Instruction.noOperation 0]) :=
  compileResolvedIf_shape 0 [Instruction.loadObject MType.boolean] [Instruction.pop] []
    Instruction.ret MType.boolean (fun c => c) (by simp)

/-- C6 counterexample: with `lib` on the search path and `lib/foo.zs` the
only existing file, `import_from` still hands the raw string `foo.zs` to
the suffix importer, whereas the resolution described by the claim (as
computed by `resolve`, which `import_from` never calls) yields
`lib/foo.zs`. -/
theorem import_from_skips_resolution :
    (ImportSystem.import_from fsC6 sysC6 ("foo.zs") =
        .ok (some (("imported:") ++ ("foo.zs")))) ∧
    (ImportSystem.resolve fsC6 sysC6 ("foo.zs") = some ("lib/foo.zs")) ∧
    ((("imported:") ++ ("foo.zs")) ≠ (("imported:") ++ ("lib/foo.zs"))) := by
  refine ⟨by decide, by decide, by decide⟩

/-- C6 (amended): a source matching `scheme:rest` with an alphabetic scheme
dispatches to the importer registered under that scheme; any other source
string is used as a filesystem path exactly as given — a directory path
goes to the directory importers and a file path is dispatched by its
extension — with no resolution against the document directory, the search
path or the working directory. -/
theorem import_from_cases (fs : FileSystem) (sys : ImportSystem)
    (source scheme rest : String) (imp : Importer) :
    (schemeSplit source = some (scheme, rest) →
        assocFind sys.importers scheme = some imp →
        ImportSystem.import_from fs sys source = .ok (imp.import_from rest)) ∧
    (schemeSplit source = none → fs.is_dir source = true →
        ImportSystem.import_from fs sys source = .ok (sys.import_directory source)) ∧
    (schemeSplit source = none → fs.is_dir source = false →
        ImportSystem.import_from fs sys source = sys.import_file source) := by
  refine ⟨fun h1 h2 => ?_, fun h1 h2 => ?_, fun h1 h2 => ?_⟩ <;>
    simp [ImportSystem.import_from, h1, h2]

/-- Witness for `import_from_cases`: a scheme-routed import and a raw file
path. -/
theorem import_from_cases_witness :
    (ImportSystem.import_from fsC6 sysC6M ("module:core") =
        .ok (Importer.import_from modImporterC6 ("core"))) ∧
    (ImportSystem.import_from fsC6 sysC6 ("foo.zs") =
        ImportSystem.import_file sysC6 ("foo.zs")) :=
  ⟨(import_from_cases fsC6 sysC6M ("module:core") ("module") ("core") modImporterC6).1
      (by decide) (by rfl),
   (import_from_cases fsC6 sysC6 ("foo.zs") ("") ("") modImporterC6).2.2
      (by decide) (by rfl)⟩

end Zs2Miniz
